import Mathlib

/-!
# Verification of the checkout / inventory-reservation workflow

A shallow embedding of the `base` app of the store backend
(`base/models.py`, `base/views.py`, `base/serializers.py`), restricted to
the parts the checkout workflow touches: stock records, cart items,
orders with their items and payment, coupons, and the endpoint handlers
`CheckoutView.post`, `OrderStatusUpdateView.patch`, `OrderCancelView.post`,
`PaymentProcessView.post`, `StockUpdateView.patch`, `AddToCartView.post`
and `ApplyCouponView.post`.

Conventions of the embedding:
* Python `Decimal` amounts are embedded as exact rationals (`ℚ`); Python
  `Decimal` arithmetic on the amounts appearing here (addition,
  multiplication, division by 100) is exact, so `ℚ` is faithful.
* Integer columns are embedded as `Int` (they can go negative in the
  database; the `MinValueValidator(0)` declared on a model field is only
  enforced where a serializer validates input, which is modelled at those
  entry points).
* Cart items are modelled on the variant-less path of the source
  (`variant = None`, so the stock consulted is `product.stock`); every
  stock-touching handler branches identically for the variant path.
* The single cart of the requesting user is part of the state; each
  endpoint handler becomes a function from state (plus request data) to
  `Except`-style result or to a result/state pair.
-/

namespace Store

/-- Monetary amounts: Python `Decimal`, embedded as exact rationals. -/
abbrev Money := ℚ

/-- The fields of `base.models.Product` used by the checkout workflow
(`price`, `tax_rate`, `is_active`, `sales_count`). -/
structure Product where
  price : Money
  tax_rate : Money
  is_active : Bool
  sales_count : Int
deriving DecidableEq, Repr

/-- Embeds `base.models.Stock`: on-hand `quantity` and `reserved_quantity`. -/
structure Stock where
  quantity : Int
  reserved_quantity : Int
deriving DecidableEq, Repr

/-- Embeds `Stock.available_quantity` (models.py line 242-244):
`max(0, self.quantity - self.reserved_quantity)`. -/
def Stock.available_quantity (s : Stock) : Int :=
  max 0 (s.quantity - s.reserved_quantity)

/-- Embeds `base.models.CartItem` (variant-less): product reference, quantity,
and the price snapshot taken at add-to-cart time. -/
structure CartItem where
  productId : Nat
  quantity : Int
  price : Money
deriving DecidableEq, Repr

/-- Embeds `base.models.Order.STATUS_CHOICES`. -/
inductive OrderStatus
  | pending | processing | confirmed | shipped | delivered
  | cancelled | refunded | failed
deriving DecidableEq, Repr

/-- Embeds `base.models.Payment.STATUS_CHOICES`. -/
inductive PaymentStatus
  | pending | processing | completed | failed | cancelled
  | refunded | partially_refunded
deriving DecidableEq, Repr

/-- Embeds `base.models.OrderItem` (variant-less): snapshot of the cart line at
order-creation time. -/
structure OrderItem where
  productId : Nat
  quantity : Int
  price : Money
  tax_rate : Money
deriving DecidableEq, Repr

/-- Embeds `base.models.Payment`, the fields `PaymentProcessView` touches. -/
structure Payment where
  status : PaymentStatus
  amount : Money
  paid_at : Bool
deriving DecidableEq, Repr

/-- The eight shipping columns of `base.models.Order`. -/
structure ShippingInfo where
  first_name : String
  last_name : String
  phone : String
  address : String
  city : String
  state : String
  postal_code : String
  country : String
deriving DecidableEq, Repr

/-- The billing columns of `base.models.Order` (also the billing part of
`CheckoutSerializer`). -/
structure BillingInfo where
  first_name : String
  last_name : String
  email : String
  phone : String
  address : String
  city : String
  state : String
  postal_code : String
  country : String
deriving DecidableEq, Repr

/-- Embeds `base.models.Order`, the fields the order-lifecycle handlers touch.
Timestamps (`paid_at`, `shipped_at`, `delivered_at`, `cancelled_at`) are
modelled by their presence. The one-to-one `Payment` and `Delivery`
records are carried on the order (`none` until created). -/
structure Order where
  status : OrderStatus
  billing : BillingInfo
  shipping : ShippingInfo
  items : List OrderItem
  subtotal : Money
  tax_amount : Money
  discount_amount : Money
  total_amount : Money
  coupon_code : String
  paid_at : Bool
  shipped_at : Bool
  delivered_at : Bool
  cancelled_at : Bool
  payment : Option Payment
  delivery : Bool
deriving DecidableEq, Repr

/-- The persistent state seen by the handlers: the product table, the
stock table (one record per product, keyed by product id), the requesting
user's cart, and the order list (newest order first, as each checkout
prepends the order it creates). -/
structure StoreState where
  products : Nat → Product
  stocks : Nat → Stock
  cartItems : List CartItem
  cartCouponCode : String
  cartDiscount : Money
  orders : List Order

/-- Embeds `CartItem.total_price` (models.py line 320-322): `price * quantity`. -/
def CartItem.total_price (it : CartItem) : Money :=
  it.price * it.quantity

/-- Embeds `CartItem.tax_amount` (models.py line 324-326):
`(total_price * product.tax_rate) / 100` — note the tax rate is read from
the live product row, not snapshotted. -/
def CartItem.tax_amount (s : StoreState) (it : CartItem) : Money :=
  it.total_price * (s.products it.productId).tax_rate / 100

/-- Embeds `Cart.subtotal` (models.py line 277-279): sum of item total prices. -/
def StoreState.subtotal (s : StoreState) : Money :=
  (s.cartItems.map CartItem.total_price).sum

/-- Embeds `Cart.tax_amount` (models.py line 281-283): sum of item tax amounts. -/
def StoreState.cartTax (s : StoreState) : Money :=
  (s.cartItems.map (CartItem.tax_amount s)).sum

/-- Embeds `Cart.total` (models.py line 285-287):
`subtotal + tax_amount - discount_amount`. -/
def StoreState.cartTotal (s : StoreState) : Money :=
  s.subtotal + s.cartTax - s.cartDiscount

/-! ## The checkout request and its serializer -/

/-- The request body of `CheckoutView.post` as declared by
`CheckoutSerializer` (serializers.py line 203-232): billing fields are
required, the shipping fields and `notes` are optional (`none` when the
key is absent from the request). -/
structure CheckoutRequest where
  billing : BillingInfo
  same_as_billing : Bool
  shipping_first_name : Option String
  shipping_last_name : Option String
  shipping_phone : Option String
  shipping_address : Option String
  shipping_city : Option String
  shipping_state : Option String
  shipping_postal_code : Option String
  shipping_country : Option String
  notes : Option String
deriving DecidableEq, Repr

/-- A DRF `CharField` with the default `allow_blank=False` and
`trim_whitespace=True` rejects a value that is empty or whitespace-only
(`data == '' or str(data).strip() == ''`) with a `blank` validation
error; equivalently, some character must be non-whitespace. -/
def charFieldOk (v : String) : Bool :=
  !(v.data.all Char.isWhitespace)

/-- Validation of an optional `CharField`: an absent key is fine
(`required=False`), a provided value must not be blank. -/
def optCharFieldOk : Option String → Bool
  | none => true
  | some v => charFieldOk v

/-- Embeds `CheckoutSerializer.is_valid()`: every required billing `CharField`
must be non-blank, and every provided optional shipping `CharField` must
be non-blank (none of them sets `allow_blank=True`; `notes` does, so it
is unconstrained). -/
def CheckoutRequest.isValid (r : CheckoutRequest) : Bool :=
  charFieldOk r.billing.first_name && charFieldOk r.billing.last_name &&
  charFieldOk r.billing.email && charFieldOk r.billing.phone &&
  charFieldOk r.billing.address && charFieldOk r.billing.city &&
  charFieldOk r.billing.state && charFieldOk r.billing.postal_code &&
  charFieldOk r.billing.country &&
  optCharFieldOk r.shipping_first_name && optCharFieldOk r.shipping_last_name &&
  optCharFieldOk r.shipping_phone && optCharFieldOk r.shipping_address &&
  optCharFieldOk r.shipping_city && optCharFieldOk r.shipping_state &&
  optCharFieldOk r.shipping_postal_code && optCharFieldOk r.shipping_country

/-- Python `data.get(key) or fallback` on validated string data: an
absent key (`None`) and an empty string are both falsy, anything else is
returned as-is. This is the shipping-field fallback idiom of
`CheckoutView.post` (views.py line 417-424). -/
def pyOr (v : Option String) (fallback : String) : String :=
  match v with
  | none => fallback
  | some x => if x = "" then fallback else x

/-- The shipping snapshot written by `Order.objects.create` in
`CheckoutView.post` (views.py line 416-424): each shipping field falls
back to its billing counterpart independently; `same_as_billing` is not
consulted anywhere in the view. -/
def resolveShipping (r : CheckoutRequest) : ShippingInfo where
  first_name := pyOr r.shipping_first_name r.billing.first_name
  last_name := pyOr r.shipping_last_name r.billing.last_name
  phone := pyOr r.shipping_phone r.billing.phone
  address := pyOr r.shipping_address r.billing.address
  city := pyOr r.shipping_city r.billing.city
  state := pyOr r.shipping_state r.billing.state
  postal_code := pyOr r.shipping_postal_code r.billing.postal_code
  country := pyOr r.shipping_country r.billing.country

/-! ## The checkout handler

`CheckoutView.post` (views.py line 372-489). The handler runs in Django
autocommit mode — there is no `transaction.atomic` block anywhere in the
repository — so every ORM write inside it commits durably on its own. We
therefore embed the body after the validation phase as an explicit list
of primitive writes, applied left to right; `checkout` applies all of
them, and `checkoutFaulty k` models an environment fault (an exception
out of the k-th write onward): only the first `k` writes land. -/

/-- The structured results the order/cart endpoints return. -/
inductive ApiError
  | validationError
  | cartEmpty
  | insufficientStock (productId : Nat)
  | cannotCancel
  | invalidStatus
  | notFound
  | couponInvalid
  | minPurchaseNotMet
deriving DecidableEq, Repr

/-- The stock-check loop of `CheckoutView.post` (views.py line 389-398):
returns the first cart line whose stock has
`available_quantity < quantity`, if any. -/
def firstInsufficient (s : StoreState) : List CartItem → Option Nat
  | [] => none
  | it :: rest =>
      if (s.stocks it.productId).available_quantity < it.quantity then
        some it.productId
      else
        firstInsufficient s rest

/-- The `Order` row written by `Order.objects.create` in
`CheckoutView.post` (views.py line 401-439): status `pending`, shipping
fields resolved by the billing fallback, pricing copied from the cart
properties (`cart.subtotal`, `cart.tax_amount`, `cart.discount_amount`,
`cart.total`), coupon code copied from the cart. Items, payment and
delivery are created by later writes. -/
def mkOrder (s : StoreState) (r : CheckoutRequest) : Order where
  status := .pending
  billing := r.billing
  shipping := resolveShipping r
  items := []
  subtotal := s.subtotal
  tax_amount := s.cartTax
  discount_amount := s.cartDiscount
  total_amount := s.cartTotal
  coupon_code := s.cartCouponCode
  paid_at := false
  shipped_at := false
  delivered_at := false
  cancelled_at := false
  payment := none
  delivery := false

/-- Apply an update to the most recently created order (the head of the
newest-first order list). -/
def updateHeadOrder (f : Order → Order) (s : StoreState) : StoreState :=
  { s with orders := match s.orders with
                     | [] => []
                     | o :: rest => f o :: rest }

/-- The `OrderItem.objects.create` write for one cart line (views.py
line 443-454): snapshots quantity, the cart-item price and the product's
current `tax_rate` onto the newest order. -/
def writeOrderItem (s₀ : StoreState) (it : CartItem) : StoreState → StoreState :=
  updateHeadOrder fun o =>
    { o with items := o.items ++
        [{ productId := it.productId, quantity := it.quantity,
           price := it.price,
           tax_rate := (s₀.products it.productId).tax_rate }] }

/-- The reservation of one cart line on the stock table (views.py line
456-463): `stock.reserved_quantity += cart_item.quantity`. -/
def reserveOne (stocks : Nat → Stock) (it : CartItem) : Nat → Stock :=
  let st := stocks it.productId
  Function.update stocks it.productId
    { st with reserved_quantity := st.reserved_quantity + it.quantity }

/-- The sales-count bump of one cart line on the product table (views.py
line 465-467): `product.sales_count += cart_item.quantity`. -/
def salesOne (products : Nat → Product) (it : CartItem) : Nat → Product :=
  let p := products it.productId
  Function.update products it.productId
    { p with sales_count := p.sales_count + it.quantity }

/-- The stock write for one cart line as a state write. -/
def writeReserve (it : CartItem) (s : StoreState) : StoreState :=
  { s with stocks := reserveOne s.stocks it }

/-- The sales-count write for one cart line as a state write. -/
def writeSales (it : CartItem) (s : StoreState) : StoreState :=
  { s with products := salesOne s.products it }

/-- Embeds `Payment.objects.create` (views.py line 470-476): a pending payment
for the order's `total_amount` attached to the newest order. -/
def writePayment : StoreState → StoreState :=
  updateHeadOrder fun o =>
    { o with payment := some { status := .pending, amount := o.total_amount,
                               paid_at := false } }

/-- Embeds `Delivery.objects.create` (views.py line 479-484). -/
def writeDelivery : StoreState → StoreState :=
  updateHeadOrder fun o => { o with delivery := true }

/-- Embeds `cart.items.all().delete()` (views.py line 487). -/
def writeClearCart (s : StoreState) : StoreState :=
  { s with cartItems := [] }

/-- The per-cart-line writes of `CheckoutView.post` (views.py line
442-467), in source order: create the order item, reserve stock, bump
the sales count. -/
def itemWrites (s₀ : StoreState) (items : List CartItem) :
    List (StoreState → StoreState) :=
  items.flatMap fun it => [writeOrderItem s₀ it, writeReserve it, writeSales it]

/-- The ordered list of primitive durable writes `CheckoutView.post`
performs once all its checks have passed: create the order, then per
cart line create the order item, reserve stock and bump the sales count,
then create payment and delivery, then clear the cart. `s₀` is the state
the request started from (pricing and tax snapshots are read from it;
the cart is not mutated until the final write, so reads of it from the
intermediate states agree with `s₀`). -/
def checkoutWrites (s₀ : StoreState) (r : CheckoutRequest) :
    List (StoreState → StoreState) :=
  (fun s => { s with orders := mkOrder s₀ r :: s.orders }) ::
  itemWrites s₀ s₀.cartItems ++
  [writePayment, writeDelivery, writeClearCart]

/-- Apply a list of writes left to right. -/
def applyAll (ws : List (StoreState → StoreState)) (s : StoreState) :
    StoreState :=
  ws.foldl (fun t f => f t) s

/-- The validation phase of `CheckoutView.post`: serializer validation,
then the empty-cart check (views.py line 385-386), then the stock-check
loop (views.py line 389-398). All of it happens before the first durable
write. -/
def checkoutCheck (s : StoreState) (r : CheckoutRequest) : Option ApiError :=
  if ¬ r.isValid then some .validationError
  else if s.cartItems = [] then some .cartEmpty
  else match firstInsufficient s s.cartItems with
       | some pid => some (.insufficientStock pid)
       | none => none

/-- Embeds `CheckoutView.post`, run to completion: on a validation failure the
handler returns the error having written nothing; otherwise every
primitive write lands and the 201 response carries the created order. -/
def checkout (s : StoreState) (r : CheckoutRequest) :
    Except ApiError StoreState :=
  match checkoutCheck s r with
  | some e => .error e
  | none => .ok (applyAll (checkoutWrites s r) s)

/-- Embeds `CheckoutView.post` with an environment fault (an unexpected
exception — e.g. a failing database write) striking after the first `k`
primitive writes: since the handler runs in autocommit mode with no
surrounding transaction, exactly those `k` writes remain durable. -/
def checkoutFaulty (s : StoreState) (r : CheckoutRequest) (k : Nat) :
    StoreState :=
  match checkoutCheck s r with
  | some _ => s
  | none => applyAll ((checkoutWrites s r).take k) s

/-- The order-item snapshot taken from one cart line (tax rate from the
current product row, price from the cart snapshot). -/
def toOrderItem (s₀ : StoreState) (it : CartItem) : OrderItem :=
  { productId := it.productId, quantity := it.quantity, price := it.price,
    tax_rate := (s₀.products it.productId).tax_rate }

/-- The reservation loop over all cart lines. -/
def reserveAll (stocks : Nat → Stock) (items : List CartItem) : Nat → Stock :=
  items.foldl reserveOne stocks

/-- The sales-count loop over all cart lines. -/
def salesAll (products : Nat → Product) (items : List CartItem) :
    Nat → Product :=
  items.foldl salesOne products

/-- The order as it stands after the last checkout write: all item
snapshots attached, a pending payment over the cart total, a pending
delivery record. -/
def finalOrder (s : StoreState) (r : CheckoutRequest) : Order :=
  { mkOrder s r with
      items := s.cartItems.map (toOrderItem s),
      payment := some { status := .pending, amount := s.cartTotal,
                        paid_at := false },
      delivery := true }

/-! ## Order lifecycle handlers -/

/-- The stock-release loop shared by `OrderStatusUpdateView.patch`
(views.py line 516-524) and `OrderCancelView.post` (views.py line
546-554): for each order item, `stock.reserved_quantity -= item.quantity`
with no lower-bound check. -/
def releaseStock (stocks : Nat → Stock) : List OrderItem → Nat → Stock :=
  fun items => items.foldl
    (fun st it =>
      let rec' := st it.productId
      Function.update st it.productId
        { rec' with reserved_quantity := rec'.reserved_quantity - it.quantity })
    stocks

/-- The stock-consumption loop of `PaymentProcessView.post` (views.py
line 581-590): for each order item, `stock.quantity -= item.quantity;
stock.reserved_quantity -= item.quantity`, with no bound checks. -/
def consumeStock (stocks : Nat → Stock) : List OrderItem → Nat → Stock :=
  fun items => items.foldl
    (fun st it =>
      let rec' := st it.productId
      Function.update st it.productId
        { rec' with quantity := rec'.quantity - it.quantity,
                    reserved_quantity := rec'.reserved_quantity - it.quantity })
    stocks

/-- Embeds `OrderStatusUpdateView.patch` (views.py line 492-528), for an
admin/vendor caller: any status value from `STATUS_CHOICES` is accepted
with no transition guard; the matching timestamp is set, and when the
new status is `cancelled` the reserved stock of every order item is
released — regardless of the order's current status. -/
def orderStatusUpdate (s : StoreState) (i : Nat) (new : OrderStatus) :
    Except ApiError StoreState :=
  match s.orders.get? i with
  | none => .error .notFound
  | some o =>
      let o' : Order :=
        { o with status := new,
                 shipped_at := if new = .shipped then true else o.shipped_at,
                 delivered_at := if new = .delivered then true else o.delivered_at,
                 cancelled_at := if new = .cancelled then true else o.cancelled_at }
      let stocks' := if new = .cancelled then releaseStock s.stocks o.items
                     else s.stocks
      .ok { s with orders := s.orders.set i o', stocks := stocks' }

/-- Embeds `OrderCancelView.post` (views.py line 531-556), for the order's
owner: cancellation is refused unless the order is `pending` or
`processing`; otherwise the order is marked cancelled and each item's
reserved stock is released. -/
def orderCancel (s : StoreState) (i : Nat) : Except ApiError StoreState :=
  match s.orders.get? i with
  | none => .error .notFound
  | some o =>
      if o.status = .pending ∨ o.status = .processing then
        let o' : Order := { o with status := .cancelled, cancelled_at := true }
        .ok { s with orders := s.orders.set i o',
                     stocks := releaseStock s.stocks o.items }
      else
        .error .cannotCancel

/-- Embeds `PaymentProcessView.post` (views.py line 560-592): looks up the
order's payment (404 if it does not exist); with no guard on either the
payment's or the order's current status it marks the payment completed,
sets the order's status to `processing` and its `paid_at`, and converts
the reservation of each item into a permanent decrement. -/
def paymentProcess (s : StoreState) (i : Nat) : Except ApiError StoreState :=
  match s.orders.get? i with
  | none => .error .notFound
  | some o =>
      match o.payment with
      | none => .error .notFound
      | some p =>
          let p' : Payment := { p with status := .completed, paid_at := true }
          let o' : Order :=
            { o with payment := some p', status := .processing, paid_at := true }
          .ok { s with orders := s.orders.set i o',
                       stocks := consumeStock s.stocks o.items }

/-! ## Vendor stock update, add-to-cart, coupons -/

/-- The body of a `StockUpdateView.patch` request (`partial=True`): any
subset of the serializer's writable stock fields; only the two counters
matter here. -/
structure StockPatch where
  quantity : Option Int
  reserved_quantity : Option Int
deriving DecidableEq, Repr

/-- Embeds `StockSerializer` validation of a patch: `quantity` and
`reserved_quantity` both carry `MinValueValidator(0)` (models.py line
222-223), which DRF enforces on input, so any provided value must be
non-negative. -/
def StockPatch.isValid (p : StockPatch) : Bool :=
  (match p.quantity with | none => true | some q => 0 ≤ q) &&
  (match p.reserved_quantity with | none => true | some q => 0 ≤ q)

/-- Embeds `StockUpdateView.patch` (views.py line 202-213): a vendor sets the
stock counters of their product directly; the only constraint is the
per-field non-negativity validator — nothing relates the new `quantity`
to the current `reserved_quantity` or vice versa. -/
def stockUpdate (s : StoreState) (pid : Nat) (p : StockPatch) :
    Except ApiError StoreState :=
  if p.isValid then
    let st := s.stocks pid
    let st' : Stock :=
      { st with quantity := p.quantity.getD st.quantity,
                reserved_quantity := p.reserved_quantity.getD st.reserved_quantity }
    .ok { s with stocks := Function.update s.stocks pid st' }
  else
    .error .validationError

/-- Replace or merge a line into the cart item list, as
`CartItem.objects.get_or_create` + the quantity bump do
(views.py line 262-276): if a line for the product exists its quantity
is incremented, otherwise a new line is appended with the product's
current price as the snapshot. -/
def addLine (items : List CartItem) (pid : Nat) (qty : Int) (price : Money) :
    List CartItem :=
  if items.any (fun it => it.productId = pid) then
    items.map fun it =>
      if it.productId = pid then { it with quantity := it.quantity + qty } else it
  else
    items ++ [{ productId := pid, quantity := qty, price := price }]

/-- Embeds `AddToCartView.post` (views.py line 231-278), variant-less path:
serializer requires `quantity ≥ 1`; the product's stock must satisfy
`available_quantity ≥ quantity`; then the line is merged into the cart
with the price snapshotted from the product's current price. -/
def addToCart (s : StoreState) (pid : Nat) (qty : Int) :
    Except ApiError StoreState :=
  if qty < 1 then .error .validationError
  else if (s.stocks pid).available_quantity < qty then
    .error (.insufficientStock pid)
  else
    .ok { s with cartItems :=
            addLine s.cartItems pid qty (s.products pid).price }

/-- Embeds `Coupon.DISCOUNT_TYPE_CHOICES`. -/
inductive DiscountType
  | percentage | fixed | free_shipping
deriving DecidableEq, Repr

/-- Embeds `base.models.Coupon`, the fields coupon validation and application
read. Datetimes are embedded as integers. -/
structure Coupon where
  code : String
  discount_type : DiscountType
  discount_value : Money
  minimum_purchase_amount : Money
  maximum_discount_amount : Option Money
  is_active : Bool
  valid_from : Int
  valid_until : Int
  usage_limit : Option Int
  usage_count : Int
deriving DecidableEq, Repr

/-- Embeds `Coupon.is_valid` (models.py line 670-677): active, inside the
validity window, and under the usage limit when one is set. -/
def Coupon.is_valid (now : Int) (c : Coupon) : Bool :=
  c.is_active && decide (c.valid_from ≤ now) && decide (now ≤ c.valid_until) &&
  (match c.usage_limit with
   | none => true
   | some l => decide (c.usage_count < l))

/-- The discount computed by `ApplyCouponView.post` (views.py line
815-823): `percentage` is `subtotal * value / 100`, capped by
`maximum_discount_amount` only when that field is set and truthy
(Python `if coupon.maximum_discount_amount:` treats both `None` and
`Decimal(0)` as false); `fixed` is the raw `discount_value`, with no
clamp against the subtotal; `free_shipping` is zero. -/
def couponDiscount (subtotal : Money) (c : Coupon) : Money :=
  match c.discount_type with
  | .percentage =>
      let d := subtotal * c.discount_value / 100
      match c.maximum_discount_amount with
      | some m => if m = 0 then d else min d m
      | none => d
  | .fixed => c.discount_value
  | .free_shipping => 0

/-- Embeds `ApplyCouponView.post` (views.py line 782-835): reject an invalid
coupon; reject when the cart subtotal is below the coupon's minimum
purchase amount; otherwise store the coupon code and the computed
discount on the cart. -/
def applyCoupon (now : Int) (s : StoreState) (c : Coupon) :
    Except ApiError StoreState :=
  if ¬ c.is_valid now then .error .couponInvalid
  else if s.subtotal < c.minimum_purchase_amount then .error .minPurchaseNotMet
  else
    .ok { s with cartCouponCode := c.code,
                 cartDiscount := couponDiscount s.subtotal c }

/-! ## Interleaved concurrent checkouts

`CheckoutView.post` issues no `select_for_update` and runs in no
transaction, so for a single-line cart its interaction with a stock row
consists of two independent atomic database accesses: the availability
read of the check loop (views.py line 395) and the read-modify-write of
the reservation (views.py line 462-463). Two concurrent requests on the
same product are modelled as two such attempts whose primitive accesses
interleave according to a schedule. -/

/-- One in-flight checkout attempt for `qty` units of the shared
product: it has passed the availability check or not, and is either
still running (`result = none`), succeeded (`some true`) or failed with
insufficient stock (`some false`). -/
structure Attempt where
  qty : Int
  checked : Bool
  result : Option Bool
deriving DecidableEq, Repr

/-- One primitive database access of an attempt: the availability check
(views.py line 395) if it has not happened yet, else the reservation
write (views.py line 462-463). A finished attempt does nothing. -/
def stepAttempt (st : Stock) (a : Attempt) : Stock × Attempt :=
  match a.result with
  | some _ => (st, a)
  | none =>
      if a.checked then
        ({ st with reserved_quantity := st.reserved_quantity + a.qty },
         { a with result := some true })
      else
        if st.available_quantity < a.qty then
          (st, { a with result := some false })
        else
          (st, { a with checked := true })

/-- Run two concurrent checkout attempts under a schedule: `true` steps
the first attempt, `false` the second. -/
def runSched : List Bool → Stock × Attempt × Attempt → Stock × Attempt × Attempt
  | [], x => x
  | b :: rest, (st, a₁, a₂) =>
      if b then
        let (st', a₁') := stepAttempt st a₁
        runSched rest (st', a₁', a₂)
      else
        let (st', a₂') := stepAttempt st a₂
        runSched rest (st', a₁, a₂')

/-- A fresh attempt for `qty` units. -/
def freshAttempt (qty : Int) : Attempt :=
  { qty := qty, checked := false, result := none }

/-! ## Concrete fixtures -/

/-- A catalogue row: price 10.00, no tax, active, no sales yet. -/
def defaultProduct : Product :=
  { price := 10, tax_rate := 0, is_active := true, sales_count := 0 }

/-- An empty stock record. -/
def defaultStock : Stock :=
  { quantity := 0, reserved_quantity := 0 }

/-- A state with a uniform catalogue, no stock, an empty cart and no
orders. -/
def emptyState : StoreState :=
  { products := fun _ => defaultProduct
    stocks := fun _ => defaultStock
    cartItems := []
    cartCouponCode := ""
    cartDiscount := 0
    orders := [] }

/-- Billing data passing every serializer check. -/
def exBilling : BillingInfo :=
  { first_name := "Ada", last_name := "Smith", email := "ada@example.com",
    phone := "555-0100", address := "1 Main St", city := "Springfield",
    state := "IL", postal_code := "62704", country := "US" }

/-- A valid checkout request with every shipping field omitted. -/
def exRequest : CheckoutRequest :=
  { billing := exBilling
    same_as_billing := false
    shipping_first_name := none
    shipping_last_name := none
    shipping_phone := none
    shipping_address := none
    shipping_city := none
    shipping_state := none
    shipping_postal_code := none
    shipping_country := none
    notes := none }

/-- A state whose cart holds 2 units of product 0 (snapshot price
10.00), with 10 on hand and nothing reserved. -/
def twoUnitState : StoreState :=
  { emptyState with
      stocks := Function.update emptyState.stocks 0
        { quantity := 10, reserved_quantity := 0 }
      cartItems := [{ productId := 0, quantity := 2, price := 10 }] }

/-- The spec's example cart: `[{price: 10.00, qty: 2, tax_rate: 5},
{price: 3.33, qty: 1, tax_rate: 0}]` (product 1 carries tax rate 5,
product 2 tax rate 0). -/
def pricingExampleState : StoreState :=
  { emptyState with
      products := fun pid =>
        if pid = 1 then { defaultProduct with tax_rate := 5 }
        else { defaultProduct with price := 333/100 }
      cartItems := [{ productId := 1, quantity := 2, price := 10 },
                    { productId := 2, quantity := 1, price := 333/100 }] }

/-- A cart line whose tax comes to 0.0025: one unit at 0.05 with a 5%
tax rate on product 3. -/
def fractionalTaxState : StoreState :=
  { emptyState with
      products := fun _ => { defaultProduct with tax_rate := 5 }
      cartItems := [{ productId := 3, quantity := 1, price := 1/20 }] }

/-- A cart with subtotal 30.00 (one unit at 30.00, no tax). -/
def subtotal30State : StoreState :=
  { emptyState with
      cartItems := [{ productId := 0, quantity := 1, price := 30 }] }

/-- A fixed-amount coupon of 50.00 that is active forever with no
minimum purchase and no usage limit. -/
def fixed50Coupon : Coupon :=
  { code := "SAVE50", discount_type := .fixed, discount_value := 50,
    minimum_purchase_amount := 0, maximum_discount_amount := none,
    is_active := true, valid_from := 0, valid_until := 100,
    usage_limit := none, usage_count := 0 }

/-- A state where the cart snapshot price (10.00) of product 7 disagrees
with the product's current price (20.00). -/
def stalePriceState : StoreState :=
  { emptyState with
      products := fun pid =>
        if pid = 7 then { defaultProduct with price := 20 } else defaultProduct
      stocks := fun _ => { quantity := 5, reserved_quantity := 0 }
      cartItems := [{ productId := 7, quantity := 1, price := 10 }] }

/-- An order over 3 units of product 0, as checkout would leave it:
pending, with a pending payment and the reservation in place. -/
def pendingOrder : Order :=
  { status := .pending, billing := exBilling,
    shipping := resolveShipping exRequest,
    items := [{ productId := 0, quantity := 3, price := 10, tax_rate := 0 }],
    subtotal := 30, tax_amount := 0, discount_amount := 0, total_amount := 30,
    coupon_code := "", paid_at := false, shipped_at := false,
    delivered_at := false, cancelled_at := false,
    payment := some { status := .pending, amount := 30, paid_at := false },
    delivery := true }

/-- A state holding `pendingOrder` with its reservation of 3 out of 10
units of product 0. -/
def pendingOrderState : StoreState :=
  { emptyState with
      stocks := Function.update emptyState.stocks 0
        { quantity := 10, reserved_quantity := 3 }
      orders := [pendingOrder] }

/-- The same order after delivery: 4 units of product 0 reserved. -/
def deliveredOrder : Order :=
  { pendingOrder with
      status := .delivered, delivered_at := true,
      items := [{ productId := 0, quantity := 4, price := 10, tax_rate := 0 }] }

/-- A state holding `deliveredOrder` with 4 of 10 units reserved. -/
def deliveredOrderState : StoreState :=
  { emptyState with
      stocks := Function.update emptyState.stocks 0
        { quantity := 10, reserved_quantity := 4 }
      orders := [deliveredOrder] }

/-! ## Definitions taken from the specification's wording

These two definitions deliberately follow the spec text rather than the
source, to be compared against the source-derived definitions above. -/

/-- Modelled from the spec: "every derived amount is rounded to the
currency's minor-unit precision (2 decimal places for USD) using
round-half-up, applied once at the final step". -/
def specRoundHalfUp2 (q : Money) : Money :=
  (⌊q * 100 + 1/2⌋ : ℤ) / 100

/-- Modelled from the spec: "Recompute pricing from current
authoritative product prices" — the subtotal the checkout would charge
if it read each line's price from the live product row instead of the
cart snapshot. -/
def specCurrentPriceSubtotal (s : StoreState) : Money :=
  (s.cartItems.map fun it => (s.products it.productId).price * it.quantity).sum

/-- A stock record is sane when its reservation is non-negative and
covered by the on-hand quantity. -/
def Stock.sane (st : Stock) : Prop :=
  0 ≤ st.reserved_quantity ∧ st.reserved_quantity ≤ st.quantity

instance (st : Stock) : Decidable st.sane := by
  unfold Stock.sane; infer_instance

/-- Extract the state of a successful endpoint result (used to name
concrete post-states in witnesses). -/
def okStateOr (fallback : StoreState) (x : Except ApiError StoreState) :
    StoreState :=
  match x with
  | .ok t => t
  | .error _ => fallback

/-- The state after checking out `twoUnitState`. -/
def twoUnitAfter : StoreState :=
  okStateOr emptyState (checkout twoUnitState exRequest)

/-- The state after applying the 50.00 fixed coupon to the 30.00 cart. -/
def subtotal30After : StoreState :=
  { subtotal30State with
      cartCouponCode := fixed50Coupon.code,
      cartDiscount := couponDiscount subtotal30State.subtotal fixed50Coupon }

/-- The state after capturing payment on the pending order. -/
def capturedAfter : StoreState :=
  okStateOr emptyState (paymentProcess pendingOrderState 0)

/-- The states reached from `twoUnitAfter` by cancelling, updating the
status of, and capturing payment on the freshly created order. -/
def twoUnitCancelled : StoreState :=
  okStateOr emptyState (orderCancel twoUnitAfter 0)

def twoUnitConfirmed : StoreState :=
  okStateOr emptyState (orderStatusUpdate twoUnitAfter 0 .confirmed)

def twoUnitCaptured : StoreState :=
  okStateOr emptyState (paymentProcess twoUnitAfter 0)

/-- The state left by a vendor stock update writing `quantity = 0`,
`reserved_quantity = 5`. -/
def badStockState : StoreState :=
  okStateOr emptyState
    (stockUpdate emptyState 0 { quantity := some 0, reserved_quantity := some 5 })

/-- The state after checking out the stale-price cart. -/
def stalePriceAfter : StoreState :=
  okStateOr emptyState (checkout stalePriceState exRequest)

/-- The state left by the admin status-update endpoint cancelling the
delivered order. -/
def deliveredCancelled : StoreState :=
  okStateOr emptyState (orderStatusUpdate deliveredOrderState 0 .cancelled)

/-- A checkout request providing an explicitly blank shipping field. -/
def blankShippingRequest : CheckoutRequest :=
  { exRequest with shipping_first_name := some "" }

/-! ## Characterizing a completed checkout -/

theorem applyAll_append (xs ys : List (StoreState → StoreState))
    (s : StoreState) : applyAll (xs ++ ys) s = applyAll ys (applyAll xs s) :=
  List.foldl_append _ _ _ _

theorem applyAll_itemWrites (s₀ : StoreState) (items : List CartItem)
    (t : StoreState) (o : Order) (rest : List Order)
    (ht : t.orders = o :: rest) :
    applyAll (itemWrites s₀ items) t =
      { t with
          stocks := reserveAll t.stocks items,
          products := salesAll t.products items,
          orders :=
            ({ o with items := o.items ++ items.map (toOrderItem s₀) }) :: rest } := by
  induction items generalizing t o rest with
  | nil =>
      obtain ⟨pr, st, ci, cc, cd, orords⟩ := t
      simp only [StoreState.orders] at ht
      subst ht
      simp [itemWrites, applyAll, reserveAll, salesAll]
  | cons it items ih =>
      have hstep :
          applyAll (itemWrites s₀ (it :: items)) t =
            applyAll (itemWrites s₀ items)
              (writeSales it (writeReserve it (writeOrderItem s₀ it t))) := by
        simp [itemWrites, applyAll]
      rw [hstep]
      rw [ih (writeSales it (writeReserve it (writeOrderItem s₀ it t)))
            ({ o with items := o.items ++ [toOrderItem s₀ it] }) rest
            (by simp [writeSales, writeReserve, writeOrderItem, updateHeadOrder,
                      ht, toOrderItem])]
      simp [writeSales, writeReserve, writeOrderItem, updateHeadOrder, ht,
            reserveAll, salesAll, toOrderItem]

/-- A checkout whose checks pass commits exactly: the sales-count bumps,
the reservations, an emptied cart, and the new order (with items,
pending payment and delivery) in front of the order list. -/
theorem checkout_ok_eq (s : StoreState) (r : CheckoutRequest)
    (h : checkoutCheck s r = none) :
    checkout s r = .ok
      { s with
          products := salesAll s.products s.cartItems,
          stocks := reserveAll s.stocks s.cartItems,
          cartItems := [],
          orders := finalOrder s r :: s.orders } := by
  unfold checkout
  rw [h]
  unfold checkoutWrites
  have hsplit :
      (fun t => { t with orders := mkOrder s r :: t.orders }) ::
        itemWrites s s.cartItems ++
        [writePayment, writeDelivery, writeClearCart] =
      ((fun t => { t with orders := mkOrder s r :: t.orders }) ::
        itemWrites s s.cartItems) ++
        [writePayment, writeDelivery, writeClearCart] := by
    simp
  rw [hsplit, applyAll_append]
  have hfirst :
      applyAll ((fun t => { t with orders := mkOrder s r :: t.orders }) ::
          itemWrites s s.cartItems) s =
        applyAll (itemWrites s s.cartItems)
          { s with orders := mkOrder s r :: s.orders } := by
    simp [applyAll]
  rw [hfirst,
      applyAll_itemWrites s s.cartItems _ (mkOrder s r) s.orders rfl]
  simp [applyAll, writePayment, writeDelivery, writeClearCart,
        updateHeadOrder, finalOrder, mkOrder]

/-- Inversion: a successful checkout passed its checks and produced
exactly the state of `checkout_ok_eq`. -/
theorem checkout_ok_elim (s : StoreState) (r : CheckoutRequest)
    (s' : StoreState) (hok : checkout s r = .ok s') :
    checkoutCheck s r = none ∧
    s' = { s with
             products := salesAll s.products s.cartItems,
             stocks := reserveAll s.stocks s.cartItems,
             cartItems := [],
             orders := finalOrder s r :: s.orders } := by
  cases hc : checkoutCheck s r with
  | some e =>
      unfold checkout at hok
      rw [hc] at hok
      cases hok
  | none =>
      rw [checkout_ok_eq s r hc] at hok
      exact ⟨rfl, (Except.ok.inj hok).symm⟩

/-- If the stock-check loop found nothing, every line's requested
quantity is covered by its stock's available quantity. -/
theorem firstInsufficient_none (s : StoreState) (items : List CartItem)
    (h : firstInsufficient s items = none) :
    ∀ it ∈ items,
      ¬ (s.stocks it.productId).available_quantity < it.quantity := by
  induction items with
  | nil => intro it hit; cases hit
  | cons it items ih =>
      intro it' hit'
      rw [firstInsufficient] at h
      by_cases hav : (s.stocks it.productId).available_quantity < it.quantity
      · simp [hav] at h
      · simp [hav] at h
        rcases List.mem_cons.mp hit' with rfl | hmem
        · exact hav
        · exact ih h it' hmem

/-- A sane stock's available quantity is the plain difference. -/
theorem available_eq_of_sane (st : Stock) (h : st.sane) :
    st.available_quantity = st.quantity - st.reserved_quantity := by
  rcases h with ⟨-, h₂⟩
  unfold Stock.available_quantity
  omega

/-- Reserving every checked line keeps every stock record sane: the
availability check guarantees `quantity - reserved ≥ requested` for
each line, and line products are pairwise distinct, so each record is
bumped at most once. -/
theorem reserveAll_sane (stocks : Nat → Stock) (items : List CartItem)
    (hsane : ∀ p, (stocks p).sane)
    (hqty : ∀ it ∈ items, 1 ≤ it.quantity)
    (havail : ∀ it ∈ items,
      ¬ (stocks it.productId).available_quantity < it.quantity)
    (hnodup : (items.map CartItem.productId).Nodup) :
    ∀ p, (reserveAll stocks items p).sane := by
  induction items generalizing stocks with
  | nil => exact fun p => hsane p
  | cons it items ih =>
      have hq : 1 ≤ it.quantity := hqty it (List.mem_cons_self it items)
      have hav := havail it (List.mem_cons_self it items)
      have hs := hsane it.productId
      rcases hs with ⟨hr0, hrq⟩
      have hdiff : it.quantity ≤ (stocks it.productId).quantity -
          (stocks it.productId).reserved_quantity := by
        unfold Stock.available_quantity at hav
        omega
      simp only [List.map_cons, List.nodup_cons] at hnodup
      rcases hnodup with ⟨hnotin, hnodup⟩
      have hone : ∀ p, (reserveOne stocks it p).sane := by
        intro p
        unfold reserveOne
        rcases eq_or_ne p it.productId with rfl | hne
        · simp only [Function.update_same]
          unfold Stock.sane
          dsimp only
          omega
        · rw [Function.update_noteq hne]
          exact hsane p
      refine ih (reserveOne stocks it) hone
        (fun it' h' => hqty it' (List.mem_cons_of_mem _ h')) ?_ hnodup
      intro it' h'
      have hne : it'.productId ≠ it.productId := by
        intro heq
        exact hnotin (heq ▸ List.mem_map_of_mem CartItem.productId h')
      unfold reserveOne
      rw [Function.update_noteq hne]
      exact havail it' (List.mem_cons_of_mem _ h')

/-- The sales-count loop adds exactly the quantities of the lines for
each product. -/
theorem salesAll_apply (products : Nat → Product) (items : List CartItem)
    (pid : Nat) :
    (salesAll products items pid).sales_count =
      (products pid).sales_count +
        ((items.filter fun it => it.productId = pid).map
          CartItem.quantity).sum := by
  induction items generalizing products with
  | nil => simp [salesAll]
  | cons it items ih =>
      have hstep : salesAll products (it :: items) =
          salesAll (salesOne products it) items := rfl
      rw [hstep, ih]
      rcases eq_or_ne it.productId pid with heq | hne
      · simp [salesOne, heq, Function.update_same]
        omega
      · simp only [salesOne]
        rw [Function.update_noteq (Ne.symm hne)]
        simp [hne]

/-- Releasing the reservation of a single order line adjusts the
reservation counter alone. -/
theorem releaseStock_single (stocks : Nat → Stock) (it : OrderItem) :
    releaseStock stocks [it] it.productId =
      { stocks it.productId with
          reserved_quantity :=
            (stocks it.productId).reserved_quantity - it.quantity } := by
  simp [releaseStock, Function.update_same]

/-- A passing `checkoutCheck` means: valid request, non-empty cart, and
no line failed the stock check. -/
theorem checkoutCheck_none_elim (s : StoreState) (r : CheckoutRequest)
    (h : checkoutCheck s r = none) :
    r.isValid = true ∧ s.cartItems ≠ [] ∧
    firstInsufficient s s.cartItems = none := by
  unfold checkoutCheck at h
  by_cases hv : r.isValid
  · simp only [hv, not_true_eq_false, if_false] at h
    by_cases he : s.cartItems = []
    · simp [he] at h
    · simp only [he, if_false] at h
      cases hfi : firstInsufficient s s.cartItems with
      | some pid => rw [hfi] at h; cases h
      | none => exact ⟨hv, he, rfl⟩
  · simp only [Bool.not_eq_true] at hv
    simp [hv] at h

/-- Helper: `orderCancel` never touches the product table. -/
theorem orderCancel_products (s : StoreState) (i : Nat) (t : StoreState)
    (h : orderCancel s i = .ok t) : t.products = s.products := by
  unfold orderCancel at h
  cases hg : s.orders.get? i with
  | none => rw [hg] at h; cases h
  | some o =>
      rw [hg] at h
      dsimp only at h
      by_cases hs : o.status = OrderStatus.pending ∨ o.status = OrderStatus.processing
      · rw [if_pos hs] at h
        cases h
        rfl
      · rw [if_neg hs] at h
        cases h


/-- Helper: `orderStatusUpdate` never touches the product table. -/
theorem orderStatusUpdate_products (s : StoreState) (i : Nat)
    (st : OrderStatus) (t : StoreState)
    (h : orderStatusUpdate s i st = .ok t) : t.products = s.products := by
  unfold orderStatusUpdate at h
  cases hg : s.orders.get? i with
  | none => rw [hg] at h; cases h
  | some o =>
      rw [hg] at h
      cases h
      rfl

/-- Helper: `paymentProcess` never touches the product table. -/
theorem paymentProcess_products (s : StoreState) (i : Nat) (t : StoreState)
    (h : paymentProcess s i = .ok t) : t.products = s.products := by
  unfold paymentProcess at h
  cases hg : s.orders.get? i with
  | none => rw [hg] at h; cases h
  | some o =>
      rw [hg] at h
      dsimp only at h
      cases hp : o.payment with
      | none => rw [hp] at h; cases h
      | some p =>
          rw [hp] at h
          cases h
          rfl

/-! ## The claims -/


/-- C1, counterexample: a single vendor stock update — one of the
operations the claim quantifies over — can set `quantity = 0` with
`reserved_quantity = 5` (both pass the serializer's per-field
non-negativity validators), after which `available_quantity` is the
clamped value 0, not `quantity - reserved_quantity = -5`: the claimed
equality fails. -/
theorem c1_counterexample :
    stockUpdate emptyState 0
        { quantity := some 0, reserved_quantity := some 5 } =
      .ok badStockState ∧
    (badStockState.stocks 0).available_quantity = 0 ∧
    (badStockState.stocks 0).quantity -
      (badStockState.stocks 0).reserved_quantity = -5 ∧
    ((0 : Int) ≠ -5) :=
  ⟨rfl, by decide, by decide, by decide⟩

/-- C1, amended: `available_quantity` is implemented as
`max(0, quantity - reserved_quantity)`, so it is always non-negative and
equals the plain difference exactly on sane stock records
(`0 ≤ reserved ≤ quantity`); checkout preserves saneness of every stock
record (its availability check guards each reservation), so after a
checkout from a sane state the claimed equality and bounds all hold —
but vendor stock updates and repeated administrative cancellations can
leave non-sane records where the plain-difference equality fails. -/
theorem c1_available_quantity_invariant (s : StoreState)
    (r : CheckoutRequest) (s' : StoreState) (pid : Nat)
    (hsane : ∀ p, (s.stocks p).sane)
    (hqty : ∀ it ∈ s.cartItems, 1 ≤ it.quantity)
    (hnodup : (s.cartItems.map CartItem.productId).Nodup)
    (hok : checkout s r = .ok s') :
    (s'.stocks pid).sane ∧
    0 ≤ (s'.stocks pid).available_quantity ∧
    (s'.stocks pid).available_quantity =
      (s'.stocks pid).quantity - (s'.stocks pid).reserved_quantity := by
  obtain ⟨hc, rfl⟩ := checkout_ok_elim s r s' hok
  obtain ⟨-, -, hfi⟩ := checkoutCheck_none_elim s r hc
  have hall : ∀ p, (reserveAll s.stocks s.cartItems p).sane :=
    reserveAll_sane s.stocks s.cartItems hsane hqty
      (firstInsufficient_none s s.cartItems hfi) hnodup
  dsimp only
  refine ⟨hall pid, le_max_left 0 _, available_eq_of_sane _ (hall pid)⟩

/-- C1, witness for the amended theorem at `twoUnitState`. -/
theorem c1_witness :
    (twoUnitAfter.stocks 0).sane ∧
    0 ≤ (twoUnitAfter.stocks 0).available_quantity ∧
    (twoUnitAfter.stocks 0).available_quantity =
      (twoUnitAfter.stocks 0).quantity -
        (twoUnitAfter.stocks 0).reserved_quantity :=
  c1_available_quantity_invariant twoUnitState exRequest twoUnitAfter 0
    (by
      intro p
      rcases eq_or_ne p 0 with rfl | h
      · decide
      · simp only [twoUnitState, Function.update_noteq h]
        exact ⟨le_refl 0, le_refl 0⟩)
    (by decide) (by decide) rfl

/-- C2, counterexample: `CheckoutView.post` runs without a transaction,
so a checkout attempt that fails (by an injected exception) right after
the `Order.objects.create` write leaves the new order durably
observable — one order exists where the claim demands none — and a
fault three writes in leaves the stock mutation observable as well. -/
theorem c2_counterexample :
    (checkoutFaulty twoUnitState exRequest 1).orders.length = 1 ∧
    twoUnitState.orders.length = 0 ∧
    ((checkoutFaulty twoUnitState exRequest 3).stocks 0).reserved_quantity
      = 2 ∧
    (twoUnitState.stocks 0).reserved_quantity = 0 := by
  decide

/-- C2, amended: every coded failure of checkout (validation error,
empty cart, insufficient stock) is raised before the first durable
write, so after such a failure the state — orders, order items, stock,
cart — is exactly as before the attempt, whatever the fault point; full
rollback after the order-creation write, however, does not exist (see
the counterexample). -/
theorem c2_coded_failures_leave_state_unchanged (s : StoreState)
    (r : CheckoutRequest) (e : ApiError) (k : Nat)
    (hfail : checkout s r = .error e) :
    checkoutFaulty s r k = s := by
  cases hc : checkoutCheck s r with
  | some e' => unfold checkoutFaulty; rw [hc]
  | none => rw [checkout_ok_eq s r hc] at hfail; cases hfail

/-- C2, witness: a checkout against an empty cart fails and leaves the
state untouched. -/
theorem c2_witness : checkoutFaulty emptyState exRequest 5 = emptyState :=
  c2_coded_failures_leave_state_unchanged emptyState exRequest
    .cartEmpty 5 rfl

/-- C3, counterexample: the unlocked check-then-reserve admits the
interleaving check₁, check₂, reserve₁, reserve₂ on a stock of 5 with
two requests for 3 each: both availability checks read 5, both attempts
succeed, and the stock ends oversold at `reserved_quantity = 6 >
quantity = 5` with clamped availability 0 — not "exactly one succeeds
… final available_quantity 2". -/
theorem c3_counterexample :
    runSched [true, false, true, false]
        ({ quantity := 5, reserved_quantity := 0 }, freshAttempt 3,
          freshAttempt 3) =
      ({ quantity := 5, reserved_quantity := 6 },
       { qty := 3, checked := true, result := some true },
       { qty := 3, checked := true, result := some true }) ∧
    ({ quantity := 5, reserved_quantity := 6 } : Stock).available_quantity
      = 0 ∧
    ((0 : Int) ≠ 2) := by
  decide

/-- C3, amended: the checkout code serializes nothing — an interleaved
schedule oversells (see the counterexample) — but whenever the two
attempts happen to run serially (in either order), exactly one
succeeds, the other fails its availability check, and the final stock
is 5 on hand with 3 reserved, i.e. `available_quantity = 2`. -/
theorem c3_serial_schedules_sell_once :
    runSched [true, true, false, false]
        ({ quantity := 5, reserved_quantity := 0 }, freshAttempt 3,
          freshAttempt 3) =
      ({ quantity := 5, reserved_quantity := 3 },
       { qty := 3, checked := true, result := some true },
       { qty := 3, checked := false, result := some false }) ∧
    runSched [false, false, true, true]
        ({ quantity := 5, reserved_quantity := 0 }, freshAttempt 3,
          freshAttempt 3) =
      ({ quantity := 5, reserved_quantity := 3 },
       { qty := 3, checked := false, result := some false },
       { qty := 3, checked := true, result := some true }) ∧
    ({ quantity := 5, reserved_quantity := 3 } : Stock).available_quantity
      = 2 := by
  decide

/-- The cart subtotal of the 30.00 cart evaluates to 30. -/
theorem subtotal30State_subtotal : subtotal30State.subtotal = 30 := by
  simp [subtotal30State, emptyState, StoreState.subtotal,
        CartItem.total_price]

/-- Applying the 50.00 fixed coupon to the 30.00 cart succeeds and
writes the discount computed by the view. -/
theorem applyCoupon_subtotal30 :
    applyCoupon 1 subtotal30State fixed50Coupon = .ok subtotal30After := by
  unfold applyCoupon
  rw [if_neg (by decide)]
  rw [if_neg (by rw [subtotal30State_subtotal]; decide)]
  rfl

/-- C4, counterexample: the view stores the raw `discount_value` for a
fixed coupon — `ApplyCouponView.post` has no clamp — so the 50.00
coupon on the 30.00 cart yields `discount_amount = 50.00` (the claim
says 30.00) and a negative cart total of −20.00. -/
theorem c4_counterexample :
    applyCoupon 1 subtotal30State fixed50Coupon = .ok subtotal30After ∧
    subtotal30State.subtotal = 30 ∧
    subtotal30After.cartDiscount = 50 ∧
    subtotal30After.cartTotal = -20 ∧
    ((50 : Money) ≠ 30) ∧ ((-20 : Money) < 0) := by
  refine ⟨applyCoupon_subtotal30, subtotal30State_subtotal, ?_, ?_,
          by norm_num, by norm_num⟩
  · simp [subtotal30After, couponDiscount, fixed50Coupon]
  · simp [subtotal30After, couponDiscount, fixed50Coupon, subtotal30State,
          emptyState, defaultProduct, StoreState.cartTotal,
          StoreState.subtotal, StoreState.cartTax, CartItem.total_price,
          CartItem.tax_amount]
    norm_num

/-- C4, amended: applying a valid fixed-amount coupon that passes the
minimum-purchase check stores the coupon's full `discount_value` as the
cart's discount, with no clamp against the subtotal, so the resulting
total is `subtotal + tax − discount_value` and may be negative. -/
theorem c4_fixed_coupon_unclamped (now : Int) (s : StoreState) (c : Coupon)
    (s' : StoreState) (htype : c.discount_type = .fixed)
    (hok : applyCoupon now s c = .ok s') :
    s'.cartDiscount = c.discount_value ∧ s'.cartCouponCode = c.code ∧
    s'.cartTotal = s.subtotal + s.cartTax - c.discount_value := by
  unfold applyCoupon at hok
  split at hok
  · cases hok
  · split at hok
    · cases hok
    · cases hok
      have hd : couponDiscount s.subtotal c = c.discount_value := by
        unfold couponDiscount
        rw [htype]
      refine ⟨hd, rfl, ?_⟩
      rw [← hd]
      rfl

/-- C4, witness for the amended theorem. -/
theorem c4_witness :
    subtotal30After.cartDiscount = fixed50Coupon.discount_value ∧
    subtotal30After.cartCouponCode = fixed50Coupon.code ∧
    subtotal30After.cartTotal =
      subtotal30State.subtotal + subtotal30State.cartTax -
        fixed50Coupon.discount_value :=
  c4_fixed_coupon_unclamped 1 subtotal30State fixed50Coupon
    subtotal30After rfl applyCoupon_subtotal30

/-- Writing index `i` of a list that holds something at `i` makes the
written value readable at `i`. -/
theorem get?_set_of_some {α : Type} (l : List α) (i : Nat) (a b : α)
    (h : l.get? i = some b) : (l.set i a).get? i = some a := by
  have hi : i < l.length := by
    rw [List.get?_eq_getElem?] at h
    exact (List.getElem?_eq_some.mp h).1
  rw [List.get?_eq_getElem?]
  exact List.getElem?_set_eq_of_lt a hi


/-- C5, counterexample: the cart snapshot price of product 7 is 10.00
while its live catalogue price is 20.00; the order created by checkout
carries subtotal 10.00 — the snapshot — not the 20.00 a recomputation
from current prices would give. -/
theorem c5_counterexample :
    checkout stalePriceState exRequest = .ok stalePriceAfter ∧
    stalePriceAfter.orders.head?.map Order.subtotal = some 10 ∧
    specCurrentPriceSubtotal stalePriceState = 20 ∧
    ((10 : Money) ≠ 20) := by
  refine ⟨rfl, ?_, ?_, by norm_num⟩
  · have h1 : stalePriceAfter.orders.head?.map Order.subtotal =
        some stalePriceState.subtotal := rfl
    rw [h1]
    simp [stalePriceState, emptyState, StoreState.subtotal,
          CartItem.total_price]
  · simp [specCurrentPriceSubtotal, stalePriceState, emptyState,
          defaultProduct]

/-- C5, amended: the order written by a successful checkout copies its
`subtotal`, `tax_amount` and `total_amount` from the cart properties,
whose subtotal is the sum of snapshotted add-to-cart prices times
quantities — current product prices are not consulted (only the tax
rate is read live). -/
theorem c5_order_pricing_from_cart_snapshots (s : StoreState)
    (r : CheckoutRequest) (s' : StoreState)
    (hok : checkout s r = .ok s') :
    s'.orders.head?.map Order.subtotal = some s.subtotal ∧
    s'.orders.head?.map Order.tax_amount = some s.cartTax ∧
    s'.orders.head?.map Order.total_amount = some s.cartTotal ∧
    s.subtotal =
      (s.cartItems.map fun it => it.price * (it.quantity : ℚ)).sum := by
  obtain ⟨-, rfl⟩ := checkout_ok_elim s r s' hok
  exact ⟨rfl, rfl, rfl, rfl⟩

/-- C5, witness for the amended theorem at `twoUnitState`. -/
theorem c5_witness :
    twoUnitAfter.orders.head?.map Order.subtotal =
      some twoUnitState.subtotal ∧
    twoUnitAfter.orders.head?.map Order.tax_amount =
      some twoUnitState.cartTax ∧
    twoUnitAfter.orders.head?.map Order.total_amount =
      some twoUnitState.cartTotal ∧
    twoUnitState.subtotal =
      (twoUnitState.cartItems.map
        fun it => it.price * (it.quantity : ℚ)).sum :=
  c5_order_pricing_from_cart_snapshots twoUnitState exRequest
    twoUnitAfter rfl

/-- C6, counterexample: capturing the payment of the `pending` order
sets its status to `processing`, not `delivered` as the claim's
transition `pending/processing → delivered` requires. -/
theorem c6_counterexample :
    paymentProcess pendingOrderState 0 = .ok capturedAfter ∧
    pendingOrder.status = .pending ∧
    capturedAfter.orders.head?.map Order.status = some .processing ∧
    (OrderStatus.processing ≠ OrderStatus.delivered) := by
  refine ⟨rfl, rfl, rfl, by decide⟩

/-- C6, amended: capturing a payment — permitted for any order that has
a payment record, with no check of the order's current status — marks
the payment completed, sets the order's `paid_at` and moves it to
`processing` (not `delivered`), and converts the reservation into a
permanent decrement: each item's stock loses `quantity` and
`reserved_quantity` alike. -/
theorem c6_payment_capture_effects (s : StoreState) (i : Nat) (o : Order)
    (p : Payment) (it : OrderItem) (s' : StoreState)
    (ho : s.orders.get? i = some o) (hp : o.payment = some p)
    (hitems : o.items = [it])
    (hok : paymentProcess s i = .ok s') :
    s'.orders.get? i = some
      { o with
          payment := some { p with status := .completed, paid_at := true },
          status := .processing, paid_at := true } ∧
    s'.stocks it.productId =
      { quantity := (s.stocks it.productId).quantity - it.quantity,
        reserved_quantity :=
          (s.stocks it.productId).reserved_quantity - it.quantity } ∧
    (∀ q, q ≠ it.productId → s'.stocks q = s.stocks q) := by
  unfold paymentProcess at hok
  rw [ho] at hok
  dsimp only at hok
  rw [hp] at hok
  cases hok
  refine ⟨?_, ?_, ?_⟩
  · exact get?_set_of_some s.orders i _ o ho
  · simp [consumeStock, hitems, Function.update_same]
  · intro q hq
    simp [consumeStock, hitems, Function.update_noteq hq]

/-- C6, witness for the amended theorem on the pending order. -/
theorem c6_witness :
    capturedAfter.orders.get? 0 = some
      { pendingOrder with
          payment := some { status := .completed, amount := 30,
                            paid_at := true },
          status := .processing, paid_at := true } ∧
    capturedAfter.stocks 0 =
      { quantity := (pendingOrderState.stocks 0).quantity - 3,
        reserved_quantity :=
          (pendingOrderState.stocks 0).reserved_quantity - 3 } ∧
    (∀ q, q ≠ 0 → capturedAfter.stocks q = pendingOrderState.stocks q) :=
  c6_payment_capture_effects pendingOrderState 0 pendingOrder
    { status := .pending, amount := 30, paid_at := false }
    { productId := 0, quantity := 3, price := 10, tax_rate := 0 }
    capturedAfter rfl rfl rfl rfl


/-- C7, counterexample: the administrative status-update endpoint
(`OrderStatusUpdateView.patch`) accepts `cancelled` for an order that
is already `delivered` — no `InvalidStateTransition` — and releases its
reserved stock (4 → 0), where the claim requires the order and all
stock records to be left unchanged on every code path. -/
theorem c7_counterexample :
    orderStatusUpdate deliveredOrderState 0 .cancelled =
      .ok deliveredCancelled ∧
    deliveredOrder.status = .delivered ∧
    deliveredCancelled.orders.head?.map Order.status = some .cancelled ∧
    (deliveredCancelled.stocks 0).reserved_quantity = 0 ∧
    (deliveredOrderState.stocks 0).reserved_quantity = 4 ∧
    ((0 : Int) ≠ 4) :=
  ⟨rfl, rfl, rfl, by decide, by decide, by decide⟩

/-- C7, amended: the user-facing cancel endpoint (`OrderCancelView.post`)
behaves as claimed — cancellation is refused outside
`pending`/`processing`, and cancelling a pending order with a line of
quantity N raises that product's available quantity by exactly N (for a
sane stock record) — but the administrative status-update endpoint
enforces no transition guard and mutates stock when set to `cancelled`
from any status (see the counterexample). -/
theorem c7_cancel_guard_and_restore (s : StoreState) (i : Nat) (o : Order)
    (it : OrderItem) (ho : s.orders.get? i = some o)
    (hitems : o.items = [it]) (hq : 0 ≤ it.quantity)
    (hsane : (s.stocks it.productId).sane) :
    (o.status = .delivered → orderCancel s i = .error .cannotCancel) ∧
    (o.status = .pending →
      orderCancel s i = .ok
        { s with
            orders := s.orders.set i
              { o with status := .cancelled, cancelled_at := true },
            stocks := releaseStock s.stocks o.items } ∧
      (releaseStock s.stocks o.items it.productId).available_quantity =
        (s.stocks it.productId).available_quantity + it.quantity) := by
  constructor
  · intro hd
    unfold orderCancel
    rw [ho]
    dsimp only
    rw [if_neg]
    rw [hd]
    decide
  · intro hp
    constructor
    · unfold orderCancel
      rw [ho]
      dsimp only
      rw [if_pos (Or.inl hp)]
    · rw [hitems, releaseStock_single]
      rcases hsane with ⟨h0, hrq⟩
      unfold Stock.available_quantity
      dsimp only
      rw [max_eq_right (by omega), max_eq_right (by omega)]
      omega

/-- C7, witness for the amended theorem on the pending order. -/
theorem c7_witness :
    (pendingOrder.status = .delivered →
      orderCancel pendingOrderState 0 = .error .cannotCancel) ∧
    (pendingOrder.status = .pending →
      orderCancel pendingOrderState 0 = .ok
        { pendingOrderState with
            orders := pendingOrderState.orders.set 0
              { pendingOrder with status := .cancelled,
                                  cancelled_at := true },
            stocks := releaseStock pendingOrderState.stocks
              pendingOrder.items } ∧
      (releaseStock pendingOrderState.stocks pendingOrder.items
          0).available_quantity =
        (pendingOrderState.stocks 0).available_quantity + 3) :=
  c7_cancel_guard_and_restore pendingOrderState 0 pendingOrder
    { productId := 0, quantity := 3, price := 10, tax_rate := 0 }
    rfl rfl (by decide) (by decide)

/-- The tax of the fractional-tax cart evaluates to 0.0025. -/
theorem fractionalTaxState_cartTax : fractionalTaxState.cartTax = 1/400 := by
  simp [fractionalTaxState, emptyState, StoreState.cartTax,
        CartItem.tax_amount, CartItem.total_price, defaultProduct]
  norm_num

/-- C8, counterexample: the cart arithmetic applies no rounding at all —
a line of one unit at 0.05 with a 5% tax rate yields a tax amount of
exactly 0.0025, which is not a 2-decimal-place value; the claimed
final round-half-up step (which would give 0.00) does not exist. -/
theorem c8_counterexample :
    fractionalTaxState.cartTax = 1/400 ∧
    specRoundHalfUp2 fractionalTaxState.cartTax = 0 ∧
    specRoundHalfUp2 fractionalTaxState.cartTax ≠
      fractionalTaxState.cartTax := by
  refine ⟨fractionalTaxState_cartTax, ?_, ?_⟩
  · rw [fractionalTaxState_cartTax]
    unfold specRoundHalfUp2
    norm_num
  · rw [fractionalTaxState_cartTax]
    unfold specRoundHalfUp2
    norm_num

/-- C8, amended: cart totals are computed in exact decimal arithmetic
(Python `Decimal`, embedded as exact rationals — no binary floating
point), deterministically; the spec's example cart evaluates to
subtotal 23.33 and tax 1.00 with `total = subtotal + tax − discount`;
but no rounding step is ever applied, so derived amounts can carry more
than two decimal places (see the counterexample). -/
theorem c8_example_cart_totals :
    pricingExampleState.subtotal = 2333/100 ∧
    pricingExampleState.cartTax = 1 ∧
    pricingExampleState.cartTotal =
      pricingExampleState.subtotal + pricingExampleState.cartTax -
        pricingExampleState.cartDiscount := by
  refine ⟨?_, ?_, rfl⟩
  · simp [pricingExampleState, emptyState, StoreState.subtotal,
          CartItem.total_price]
    norm_num
  · simp [pricingExampleState, emptyState, StoreState.cartTax,
          CartItem.tax_amount, CartItem.total_price, defaultProduct]
    norm_num

/-- C9: checkout bumps each purchased product's `sales_count` by the
purchased quantity as part of order creation — at which point the
order's payment is still `pending`, i.e. before any capture — and none
of the later lifecycle operations (owner cancellation, administrative
status update including cancellation, payment capture) touches the
product table, so `sales_count` is never decremented and cancelled
orders stay counted. -/
theorem c9_sales_count_monotone (s : StoreState) (r : CheckoutRequest)
    (s' t₁ t₂ t₃ : StoreState) (pid i : Nat) (st : OrderStatus)
    (hok : checkout s r = .ok s')
    (hcancel : orderCancel s' i = .ok t₁)
    (hstatus : orderStatusUpdate s' i st = .ok t₂)
    (hcapture : paymentProcess s' i = .ok t₃) :
    (s'.products pid).sales_count =
      (s.products pid).sales_count +
        ((s.cartItems.filter fun it => it.productId = pid).map
          CartItem.quantity).sum ∧
    s'.orders.head?.map (fun o => o.payment.map Payment.status) =
      some (some .pending) ∧
    t₁.products = s'.products ∧ t₂.products = s'.products ∧
    t₃.products = s'.products := by
  obtain ⟨-, rfl⟩ := checkout_ok_elim s r s' hok
  exact ⟨salesAll_apply s.products s.cartItems pid, rfl,
         orderCancel_products _ _ _ hcancel,
         orderStatusUpdate_products _ _ _ _ hstatus,
         paymentProcess_products _ _ _ hcapture⟩

/-- C9, witness: checking out the two-unit cart and then cancelling,
re-statusing and capturing the resulting order. -/
theorem c9_witness :
    (twoUnitAfter.products 0).sales_count =
      (twoUnitState.products 0).sales_count +
        ((twoUnitState.cartItems.filter fun it => it.productId = 0).map
          CartItem.quantity).sum ∧
    twoUnitAfter.orders.head?.map (fun o => o.payment.map Payment.status) =
      some (some .pending) ∧
    twoUnitCancelled.products = twoUnitAfter.products ∧
    twoUnitConfirmed.products = twoUnitAfter.products ∧
    twoUnitCaptured.products = twoUnitAfter.products :=
  c9_sales_count_monotone twoUnitState exRequest twoUnitAfter
    twoUnitCancelled twoUnitConfirmed twoUnitCaptured 0 0 .confirmed
    rfl rfl rfl rfl


/-- C10, counterexample: a blank (empty-string) shipping field is not
replaced by the billing value — the serializer rejects it
(`allow_blank` defaults to false on every shipping `CharField`), so the
whole checkout fails with a validation error and no order is created;
only an *omitted* field falls back to billing. -/
theorem c10_counterexample :
    checkout twoUnitState blankShippingRequest = .error .validationError ∧
    blankShippingRequest.shipping_first_name = some "" ∧
    checkout twoUnitState exRequest = .ok twoUnitAfter ∧
    exRequest.shipping_first_name = none ∧
    twoUnitAfter.orders.head?.map (fun o => o.shipping.first_name) =
      some "Ada" ∧
    exBilling.first_name = "Ada" :=
  ⟨rfl, rfl, rfl, rfl, rfl, rfl⟩

/-- C10, amended: each *omitted* shipping field of a successful
checkout independently falls back to its billing counterpart
(`same_as_billing` is never read, so it has no effect on any of this);
a *blank* shipping value, however, fails serializer validation and
aborts the checkout (see the counterexample). -/
theorem c10_shipping_fallback_per_field (s : StoreState)
    (r : CheckoutRequest) (s' : StoreState) (b : Bool)
    (hok : checkout s r = .ok s') :
    checkout s { r with same_as_billing := b } = checkout s r ∧
    s'.orders.head?.map Order.shipping = some (resolveShipping r) ∧
    (r.shipping_first_name = none →
      (resolveShipping r).first_name = r.billing.first_name) ∧
    (r.shipping_last_name = none →
      (resolveShipping r).last_name = r.billing.last_name) ∧
    (r.shipping_phone = none →
      (resolveShipping r).phone = r.billing.phone) ∧
    (r.shipping_address = none →
      (resolveShipping r).address = r.billing.address) ∧
    (r.shipping_city = none →
      (resolveShipping r).city = r.billing.city) ∧
    (r.shipping_state = none →
      (resolveShipping r).state = r.billing.state) ∧
    (r.shipping_postal_code = none →
      (resolveShipping r).postal_code = r.billing.postal_code) ∧
    (r.shipping_country = none →
      (resolveShipping r).country = r.billing.country) := by
  obtain ⟨-, rfl⟩ := checkout_ok_elim s r s' hok
  refine ⟨?_, rfl, ?_, ?_, ?_, ?_, ?_, ?_, ?_, ?_⟩
  · cases r
    rfl
  all_goals intro h
  all_goals simp [resolveShipping, pyOr, h]

/-- C10, witness for the amended theorem: every shipping field of
`exRequest` is omitted, so the created order ships to the billing
identity. -/
theorem c10_witness :
    checkout twoUnitState
        { exRequest with same_as_billing := true } =
      checkout twoUnitState exRequest ∧
    twoUnitAfter.orders.head?.map Order.shipping =
      some (resolveShipping exRequest) ∧
    (exRequest.shipping_first_name = none →
      (resolveShipping exRequest).first_name = exBilling.first_name) ∧
    (exRequest.shipping_last_name = none →
      (resolveShipping exRequest).last_name = exBilling.last_name) ∧
    (exRequest.shipping_phone = none →
      (resolveShipping exRequest).phone = exBilling.phone) ∧
    (exRequest.shipping_address = none →
      (resolveShipping exRequest).address = exBilling.address) ∧
    (exRequest.shipping_city = none →
      (resolveShipping exRequest).city = exBilling.city) ∧
    (exRequest.shipping_state = none →
      (resolveShipping exRequest).state = exBilling.state) ∧
    (exRequest.shipping_postal_code = none →
      (resolveShipping exRequest).postal_code = exBilling.postal_code) ∧
    (exRequest.shipping_country = none →
      (resolveShipping exRequest).country = exBilling.country) :=
  c10_shipping_fallback_per_field twoUnitState exRequest twoUnitAfter
    true rfl

end Store
